import Mathlib

/-!
Verification of the Nirantar control plane against its specification.

The Go sources are shallowly embedded below:
* the reconciler of the controller (`apps/controller/main.go`, `ReconcileChannel`,
  `UpdateHealthHistory`, the takeover cooldown and the manual-loop override),
* the SRS publish webhook (`OnPublishHandler`),
* the per-channel relay manager (`handleUpdate`, `handleConfigChange`,
  `manageDistributors`, `startDistributor`),
* the credential crypto (`crypto.go`: `HashToken`, `Encrypt`, `Decrypt`).

Go strings are modelled as Lean `String`s, Go byte slices as `List Nat`
(each entry a byte value), machine integers as `Int`/`Nat`, Go maps as
total functions returning the Go zero value for absent keys (with
`Option` where the code uses the comma-ok form), and time instants as
`Int` seconds.  Side effects (starting or stopping containers, scheduling
asynchronous store writes, emitting log events) are returned as explicit
effect fields of the step functions.
-/

namespace Nirantar

/-! Small map helpers (Go maps as total functions) -/

/-- Write one key of a string-valued Go map (`m[k] = v`). -/
def setStr (f : String → String) (k v : String) : String → String :=
  fun x => if x = k then v else f x

/-- Write one key of a bool-valued Go map; writing `false` is `delete`. -/
def setBool (f : String → Bool) (k : String) (v : Bool) : String → Bool :=
  fun x => if x = k then v else f x

/-- Write one key of an optional-valued Go map; `none` is `delete`. -/
def setOpt {α : Type} (f : String → Option α) (k : String) (v : Option α) :
    String → Option α :=
  fun x => if x = k then v else f x

/-! Controller data model (`apps/controller/main.go`) -/

/-- The fields of the Go `Channel` struct that the reconciler and the
webhooks read.  `activeSource` is the persisted `current_active_source`
column as loaded at the start of the tick. -/
structure Channel where
  id : Int
  name : String
  enabled : Bool
  loopEnabled : Bool
  obsOverrideEnabled : Bool
  obsToken : String
  loopToken : String
  activeSource : String
  failoverTimeout : Int
  deriving DecidableEq

/-- The fields of an SRS stream entry that `ReconcileChannel` reads:
`Publish.Active`, `Kbps.Recv` and `Video.Width`. -/
structure SRSStream where
  publishActive : Bool
  kbpsRecv : Int
  videoWidth : Int
  deriving DecidableEq

/-- One row of the `audit_logs` table. -/
structure AuditEntry where
  action : String
  resourceType : String
  resourceId : String
  details : String
  ip : String
  deriving DecidableEq

/-- The shared mutable state of the controller plus the two persisted pieces the
claims mention: the `current_active_source` column (`dbActiveSource`,
keyed by channel name) and the append-only audit log.  `loopStops`
records the loop containers the publish hook asked to stop. -/
structure CtrlState where
  activeSourceMap : String → String
  manualLoopOverride : String → Bool
  takeoverCooldown : String → Option Int
  healthHistory : String → List Bool
  dbActiveSource : String → String
  auditLogs : List AuditEntry
  loopStops : List String

/-- The loop-container supervision action a tick issues for a channel:
`EnsureContainerRunning` or `EnsureContainerStopped`. -/
inductive LoopAction where
  | running
  | stopped
  deriving DecidableEq

/-- Observable outcome of `ReconcileChannel` for one channel:
the new controller state, the loop supervision action, the
`go c.UpdateActiveSource(id, src)` call scheduled by the auto-switch rule
(if any), and whether the auto-switch audit/log event was emitted. -/
structure TickResult where
  st : CtrlState
  loopAction : LoopAction
  scheduledStoreUpdate : Option (Int × String)
  autoSwitchEvent : Bool

/-- `UpdateHealthHistory` (main.go:460-470): append the newest sample and
drop the oldest when the buffer exceeds the stability window. -/
def UpdateHealthHistory (window : Nat) (history : List Bool) (healthy : Bool) :
    List Bool :=
  let h2 := history ++ [healthy]
  if window < h2.length then h2.drop 1 else h2

/-- Push one sample into the health-history map at `key`. -/
def pushHealthKey (window : Nat) (hh : String → List Bool) (key : String)
    (healthy : Bool) : String → List Bool :=
  fun x => if x = key then UpdateHealthHistory window (hh key) healthy else hh x

/-- The two health pushes of a tick (`{name}_loop` then `{name}_obs`). -/
def pushHealth (window : Nat) (ch : Channel) (loopRobust obsRobust : Bool)
    (hh : String → List Bool) : String → List Bool :=
  pushHealthKey window (pushHealthKey window hh (ch.name ++ "_loop") loopRobust)
    (ch.name ++ "_obs") obsRobust

/-- OBS stream lookup (main.go:318-329): prefer `{name}-obs`, else fall
back to a stream named after the OBS token of the channel. -/
def obsStreamOf (ch : Channel) (streams : String → Option SRSStream) :
    Option SRSStream :=
  match streams (ch.name ++ "-obs") with
  | some s => some s
  | none => if ch.obsToken ≠ "" then streams ch.obsToken else none

/-- Robust loop liveness (main.go:333): publishing with data flowing. -/
def loopRobust (ch : Channel) (streams : String → Option SRSStream) : Bool :=
  match streams ch.name with
  | some s => s.publishActive && (0 < s.kbpsRecv || 0 < s.videoWidth)
  | none => false

/-- Robust OBS (primary) liveness (main.go:335): publishing with more than
100 kbps received — the single-sample `primary_up` of the spec. -/
def obsRobust (ch : Channel) (streams : String → Option SRSStream) : Bool :=
  match obsStreamOf ch streams with
  | some s => s.publishActive && 100 < s.kbpsRecv
  | none => false

/-- Default an empty in-memory source to `LOOP` (main.go:350-352). -/
def defaultedSource (s : String) : String :=
  if s = "" then "LOOP" else s

/-- The `current_source` the tick works with after the store sync
(main.go:346-360): adopt the persisted value when it is set and differs. -/
def resolvedSource (ch : Channel) (m : String → String) : String :=
  if ch.activeSource ≠ "" ∧ ch.activeSource ≠ defaultedSource (m ch.name) then
    ch.activeSource
  else defaultedSource (m ch.name)

/-- The in-memory map after the store sync (main.go:354-360). -/
def syncedMap (ch : Channel) (m : String → String) : String → String :=
  if ch.activeSource ≠ "" ∧ ch.activeSource ≠ defaultedSource (m ch.name) then
    setStr m ch.name ch.activeSource
  else m

/-- Manual-override clearing (main.go:362-374): the override map after the
tick observed `obsRobust`, and the override value the tick keeps using. -/
def clearedOverride (obsR : Bool) (ch : Channel) (mlo : String → Bool) :
    (String → Bool) × Bool :=
  if ¬ obsR ∧ mlo ch.name then (setBool mlo ch.name false, false)
  else (mlo, mlo ch.name)

/-- Effective failover timeout (main.go:412-415): default 60 s when the
stored `failover_timeout_seconds` is not positive. -/
def effFailoverTimeout (ch : Channel) : Int :=
  if ch.failoverTimeout ≤ 0 then 60 else ch.failoverTimeout

/-- The condition of the auto-switch rule (main.go:378): override enabled,
OBS robust, current source not already OBS, no manual loop override left
after the clearing step. -/
def autoFire (ch : Channel) (streams : String → Option SRSStream)
    (st : CtrlState) : Bool :=
  ch.obsOverrideEnabled && obsRobust ch streams &&
    decide (resolvedSource ch st.activeSourceMap ≠ "OBS") &&
    !(clearedOverride (obsRobust ch streams) ch st.manualLoopOverride).2

/-- The in-memory source map after the sync and the auto-switch rule
(main.go:354-390). -/
def postRuleMap (ch : Channel) (streams : String → Option SRSStream)
    (st : CtrlState) : String → String :=
  if autoFire ch streams st then setStr (syncedMap ch st.activeSourceMap) ch.name "OBS"
  else syncedMap ch st.activeSourceMap

/-- The override map after the clearing step (main.go:362-374). -/
def postOverrideMap (ch : Channel) (streams : String → Option SRSStream)
    (st : CtrlState) : String → Bool :=
  (clearedOverride (obsRobust ch streams) ch st.manualLoopOverride).1

/-- The `go c.UpdateActiveSource` call the auto-switch rule schedules
(main.go:388). -/
def postRuleSched (ch : Channel) (streams : String → Option SRSStream)
    (st : CtrlState) : Option (Int × String) :=
  if autoFire ch streams st then some (ch.id, "OBS") else none

/-- `ReconcileChannel` (main.go:305-438) for one channel: disabled-channel
early return, robust liveness, health pushes, store sync, manual-override
clearing, the auto-switch-to-OBS rule, the takeover-cooldown guard, and
loop supervision.  `window` is `Config.StabilityWindow` and `now` the
time of the tick in seconds. -/
def ReconcileChannel (window : Nat) (now : Int) (ch : Channel)
    (streams : String → Option SRSStream) (st : CtrlState) : TickResult :=
  if ch.enabled then
    let hh := pushHealth window ch (loopRobust ch streams) (obsRobust ch streams)
      st.healthHistory
    match st.takeoverCooldown ch.name with
    | some t =>
        if now - t < effFailoverTimeout ch then
          ⟨⟨postRuleMap ch streams st, postOverrideMap ch streams st,
            st.takeoverCooldown, hh, st.dbActiveSource, st.auditLogs, st.loopStops⟩,
            .stopped, postRuleSched ch streams st, autoFire ch streams st⟩
        else
          ⟨⟨postRuleMap ch streams st, postOverrideMap ch streams st,
            setOpt st.takeoverCooldown ch.name none, hh, st.dbActiveSource,
            st.auditLogs, st.loopStops⟩,
            (if ch.loopEnabled then .running else .stopped),
            postRuleSched ch streams st, autoFire ch streams st⟩
    | none =>
        ⟨⟨postRuleMap ch streams st, postOverrideMap ch streams st,
          st.takeoverCooldown, hh, st.dbActiveSource, st.auditLogs, st.loopStops⟩,
          (if ch.loopEnabled then .running else .stopped),
          postRuleSched ch streams st, autoFire ch streams st⟩
  else ⟨st, .stopped, none, false⟩

/-! Relay manager (the per-channel relay, `part_004`) -/

/-- The `Config` payload of the relay of `POST /update`. -/
structure RelayConfig where
  sourceURL : String
  destinations : List String
  videoBitrate : Int
  audioBitrate : Int
  keyframeInterval : Int
  deriving DecidableEq

/-- The Go zero value of `Config`, produced when the request body fails to
decode. -/
def zeroRelayConfig : RelayConfig := ⟨"", [], 0, 0, 0⟩

/-- The built-in loop ingest URL of the relay (`loopStream` in part_004). -/
def loopStreamURL : String := "rtmp://srs:1935/live/waheguru"

/-- Relay process state.  `dists` is membership in the `distributors` map,
`distStarts` counts how often the distributor of each destination was launched
(so restarts are observable), `obsPumpGen`/`transcoderGen` count process
(re)starts of the OBS pump and the transcoder, and `failureCounts` is the
backoff map (`none` = absent key). -/
structure RelayState where
  config : RelayConfig
  mode : String
  obsPumpGen : Nat
  transcoderRunning : Bool
  transcoderGen : Nat
  dists : String → Bool
  distStarts : String → Nat
  failureCounts : String → Option Nat

/-- `switchMode` (part_004:261-266): flip the muxer mode flag. -/
def switchMode (m : String) (s : RelayState) : RelayState :=
  { s with mode := m }

/-- `startOBSPump` (part_004:174-240): kill any previous OBS pump, start a
new one, and switch the muxer to OBS when the started URL is the configured
source.  The byte-pumping loop itself is data plane and not modelled. -/
def startOBSPump (url : String) (s : RelayState) : RelayState :=
  { s with
    obsPumpGen := s.obsPumpGen + 1
    mode := if s.config.sourceURL = url then "OBS" else s.mode }

/-- `manageDistributors` (part_004:408-433): kill and purge distributors
whose URL left the desired set, and start one for each new URL. -/
def manageDistributors (destinations : List String) (s : RelayState) :
    RelayState :=
  { s with
    dists := fun u => decide (u ∈ destinations)
    distStarts := fun u =>
      if u ∈ destinations ∧ s.dists u = false then s.distStarts u + 1
      else s.distStarts u
    failureCounts := fun u =>
      if s.dists u = true ∧ u ∉ destinations then none else s.failureCounts u }

/-- The source-change stage of `handleConfigChange` (part_004:352-366):
record the new config; when the source URL changed, flip to LOOP or start
the OBS pump. -/
def applySourceChange (newConfig : RelayConfig) (s : RelayState) : RelayState :=
  if newConfig.sourceURL ≠ s.config.sourceURL then
    if newConfig.sourceURL = loopStreamURL then
      switchMode "LOOP" { s with config := newConfig }
    else startOBSPump newConfig.sourceURL { s with config := newConfig }
  else { s with config := newConfig }

/-- The transcoder stage of `handleConfigChange` (part_004:368-370): start
the transcoder when it is absent or has exited. -/
def ensureTranscoder (s : RelayState) : RelayState :=
  if s.transcoderRunning then s
  else { s with transcoderRunning := true, transcoderGen := s.transcoderGen + 1 }

/-- `handleConfigChange` (part_004:351-372): record the new config; on a
source change either flip to LOOP or start the OBS pump; ensure the
transcoder runs; reconcile the distributor set. -/
def handleConfigChange (newConfig : RelayConfig) (s : RelayState) : RelayState :=
  manageDistributors newConfig.destinations
    (ensureTranscoder (applySourceChange newConfig s))

/-- `handleUpdate` (part_004:318-327): reject non-POST with 405; otherwise
apply the decoded body — or the zero `Config` when decoding failed — and
answer 200. -/
def handleUpdate (isPost : Bool) (decoded : Option RelayConfig)
    (s : RelayState) : Nat × RelayState :=
  if isPost then (200, handleConfigChange (decoded.getD zeroRelayConfig) s)
  else (405, s)

/-- `handleStatus` (part_004:329-349): the observable `/status` report. -/
def handleStatus (s : RelayState) :
    String × String × (String → Bool) × Bool :=
  (s.config.sourceURL, s.mode, s.dists, s.transcoderRunning)

/-- The pre-launch backoff sleep of `startDistributor` (part_004:437-442),
in seconds: `fails × 2` when the failure count is positive. -/
def startDistributorDelay (fails : Nat) : Nat :=
  if 0 < fails then fails * 2 else 0

/-- The failure-count update after a distributor run of `runSeconds`
(part_004:462-470): reset after more than 60 s of uptime, else increment. -/
def distributorBackoffUpdate (runSeconds : Nat) (fails : Nat) : Nat :=
  if 60 < runSeconds then 0 else fails + 1

/-! Credential crypto (`apps/controller/crypto.go`)

`Encrypt`/`Decrypt` wrap the Go `crypto/cipher` AES-GCM.  Exactly as
`cipher.NewGCM` is generic over any 128-bit block cipher, the GCM mode is
embedded below over a block-cipher parameter `E`; the AES-256 instance
built from `ENCRYPTION_KEY` is one such `E`.  Bytes are `Nat`s below 256,
and hex strings are produced and consumed as in the Go `encoding/hex`. -/

/-- Lower-case hex digit of a value below 16 (Go `encoding/hex`). -/
def hexDigitChar (n : Nat) : Char :=
  if n < 10 then Char.ofNat (48 + n) else Char.ofNat (87 + n)

/-- Hex-encode a byte slice, two digits per byte. -/
def hexEncodeBytes (bs : List Nat) : List Char :=
  bs.flatMap (fun b => [hexDigitChar (b / 16), hexDigitChar (b % 16)])

/-- `hex.EncodeToString`. -/
def hexEncode (bs : List Nat) : String :=
  String.mk (hexEncodeBytes bs)

/-- Value of one hex digit character; `none` for a non-digit. -/
def hexDigitVal (c : Char) : Option Nat :=
  if 48 ≤ c.toNat ∧ c.toNat ≤ 57 then some (c.toNat - 48)
  else if 97 ≤ c.toNat ∧ c.toNat ≤ 102 then some (c.toNat - 87)
  else if 65 ≤ c.toNat ∧ c.toNat ≤ 70 then some (c.toNat - 55)
  else none

/-- `hex.DecodeString` on the character list: pairs of digits to bytes. -/
def hexDecodeChars : List Char → Option (List Nat)
  | [] => some []
  | [_] => none
  | c1 :: c2 :: rest =>
    match hexDigitVal c1, hexDigitVal c2, hexDecodeChars rest with
    | some hi, some lo, some bs => some ((16 * hi + lo) :: bs)
    | _, _, _ => none

/-- `hex.DecodeString`. -/
def hexDecode (s : String) : Option (List Nat) :=
  hexDecodeChars s.data

/-- Byte-wise XOR of two equal-length byte slices. -/
def xorBytes (a b : List Nat) : List Nat :=
  List.zipWith (fun x y => x ^^^ y) a b

/-- Big-endian bytes of `n`, `w` bytes wide. -/
def beBytes : Nat → Nat → List Nat
  | 0, _ => []
  | w + 1, n => beBytes w (n / 256) ++ [n % 256]

/-- Big-endian value of a byte slice. -/
def beVal (bs : List Nat) : Nat :=
  bs.foldl (fun a b => a * 256 + b) 0

/-- GCM counter increment: bump the trailing 32-bit word of the 16-byte
counter block. -/
def incCounter (c : List Nat) : List Nat :=
  c.take 12 ++ beBytes 4 ((beVal (c.drop 12) + 1) % 2 ^ 32)

/-- `k` consecutive counter-mode keystream blocks under `E`. -/
def ctrBlocks (E : List Nat → List Nat) (ctr : List Nat) : Nat → List Nat
  | 0 => []
  | k + 1 => E ctr ++ ctrBlocks E (incCounter ctr) k

/-- The first `n` keystream bytes starting from counter block `ctr`. -/
def keystream (E : List Nat → List Nat) (ctr : List Nat) (n : Nat) : List Nat :=
  (ctrBlocks E ctr ((n + 15) / 16)).take n

/-- The GCM reduction constant (the field polynomial, MSB-first). -/
def gcmR : Nat := 0xE1000000000000000000000000000000

/-- One pass of GF(2^128) multiplication: `i` bits of `x` left to process,
accumulator `z`, current multiple `v`. -/
def gfMulGo : Nat → Nat → Nat → Nat → Nat
  | 0, _, z, _ => z
  | i + 1, x, z, v =>
    let z2 := if x / 2 ^ i % 2 = 1 then z ^^^ v else z
    let v2 := if v % 2 = 1 then (v / 2) ^^^ gcmR else v / 2
    gfMulGo i x z2 v2

/-- GF(2^128) multiplication used by GHASH. -/
def gfMul (x y : Nat) : Nat :=
  gfMulGo 128 x 0 y

/-- Zero-pad a short final block to 16 bytes. -/
def padBlock16 (bs : List Nat) : List Nat :=
  bs ++ List.replicate (16 - bs.length) 0

/-- Split a byte slice into zero-padded 16-byte blocks (as 128-bit values);
the first argument is block-count fuel. -/
def toBlocksGo : Nat → List Nat → List Nat
  | 0, _ => []
  | k + 1, bs => beVal (padBlock16 (bs.take 16)) :: toBlocksGo k (bs.drop 16)

/-- All 16-byte blocks of a byte slice. -/
def toBlocks (bs : List Nat) : List Nat :=
  toBlocksGo ((bs.length + 15) / 16) bs

/-- GHASH: fold the blocks through the keyed GF(2^128) multiply. -/
def ghash (h : Nat) (blocks : List Nat) : Nat :=
  blocks.foldl (fun y b => gfMul (y ^^^ b) h) 0

/-- The GCM authentication tag over ciphertext `c` (empty additional data,
as `Seal(nil, nonce, plaintext, nil)` uses): GHASH under `H = E(0^16)`
over the padded ciphertext and the length block, masked with `E(J0)`. -/
def gcmTag (E : List Nat → List Nat) (nonce c : List Nat) : List Nat :=
  let h := beVal (E (List.replicate 16 0))
  let j0 := nonce ++ [0, 0, 0, 1]
  let lenBlock := beVal (beBytes 8 0 ++ beBytes 8 (8 * c.length))
  let s := ghash h (toBlocks c ++ [lenBlock])
  xorBytes (beBytes 16 s) (E j0)

/-- `Seal`: counter-mode encryption starting at `inc(J0)` followed by the
tag. -/
def gcmSeal (E : List Nat → List Nat) (nonce pt : List Nat) : List Nat :=
  let c := xorBytes pt (keystream E (incCounter (nonce ++ [0, 0, 0, 1])) pt.length)
  c ++ gcmTag E nonce c

/-- `Open`: split off the 16-byte tag, recompute and compare it, and
counter-mode decrypt on success. -/
def gcmOpen (E : List Nat → List Nat) (nonce ct : List Nat) :
    Option (List Nat) :=
  if ct.length < 16 then none
  else
    let c := ct.take (ct.length - 16)
    let tag := ct.drop (ct.length - 16)
    if tag = gcmTag E nonce c then
      some (xorBytes c (keystream E (incCounter (nonce ++ [0, 0, 0, 1])) c.length))
    else none

/-- `Encrypt` (crypto.go:62-82): seal the plaintext under the fresh random
96-bit `nonce` and return hex ciphertext and hex nonce.  The randomness of
the nonce is an input here. -/
def Encrypt (E : List Nat → List Nat) (nonce plaintext : List Nat) :
    String × String :=
  (hexEncode (gcmSeal E nonce plaintext), hexEncode nonce)

/-- `Decrypt` (crypto.go:33-60): hex-decode ciphertext and nonce, then
authenticate and decrypt; any failure is an error (`none`). -/
def Decrypt (E : List Nat → List Nat) (encryptedHex ivHex : String) :
    Option (List Nat) :=
  match hexDecode encryptedHex, hexDecode ivHex with
  | some ct, some nonce => gcmOpen E nonce ct
  | _, _ => none

/-! SHA-256 (FIPS 180-4), the hash behind `HashToken`. -/

/-- 32-bit rotate right. -/
def rotr32 (n x : Nat) : Nat :=
  ((x / 2 ^ n) ||| (x * 2 ^ (32 - n))) % 2 ^ 32

/-- Logical shift right. -/
def shr32 (n x : Nat) : Nat :=
  x / 2 ^ n

def sigmaBig0 (x : Nat) : Nat := rotr32 2 x ^^^ rotr32 13 x ^^^ rotr32 22 x

def sigmaBig1 (x : Nat) : Nat := rotr32 6 x ^^^ rotr32 11 x ^^^ rotr32 25 x

def sigmaSmall0 (x : Nat) : Nat := rotr32 7 x ^^^ rotr32 18 x ^^^ shr32 3 x

def sigmaSmall1 (x : Nat) : Nat := rotr32 17 x ^^^ rotr32 19 x ^^^ shr32 10 x

/-- SHA-256 `Ch(x,y,z)`; `NOT x` is XOR with the 32-bit mask. -/
def chFun (x y z : Nat) : Nat :=
  (x &&& y) ^^^ ((x ^^^ 0xffffffff) &&& z)

/-- SHA-256 `Maj(x,y,z)`. -/
def majFun (x y z : Nat) : Nat :=
  (x &&& y) ^^^ (x &&& z) ^^^ (y &&& z)

/-- The eight SHA-256 working variables. -/
structure SHAState where
  a : Nat
  b : Nat
  c : Nat
  d : Nat
  e : Nat
  f : Nat
  g : Nat
  h : Nat

/-- The SHA-256 initial hash value. -/
def shaInit : SHAState :=
  ⟨1779033703, 3144134277, 1013904242, 2773480762,
   1359893119, 2600822924, 528734635, 1541459225⟩

/-- The 64 SHA-256 round constants. -/
def shaK : List Nat :=
  [1116352408, 1899447441, 3049323471, 3921009573,
   961987163, 1508970993, 2453635748, 2870763221,
   3624381080, 310598401, 607225278, 1426881987,
   1925078388, 2162078206, 2614888103, 3248222580,
   3835390401, 4022224774, 264347078, 604807628,
   770255983, 1249150122, 1555081692, 1996064986,
   2554220882, 2821834349, 2952996808, 3210313671,
   3336571891, 3584528711, 113926993, 338241895,
   666307205, 773529912, 1294757372, 1396182291,
   1695183700, 1986661051, 2177026350, 2456956037,
   2730485921, 2820302411, 3259730800, 3345764771,
   3516065817, 3600352804, 4094571909, 275423344,
   430227734, 506948616, 659060556, 883997877,
   958139571, 1322822218, 1537002063, 1747873779,
   1955562222, 2024104815, 2227730452, 2361852424,
   2428436474, 2756734187, 3204031479, 3329325298]

/-- One SHA-256 compression round. -/
def shaRound (st : SHAState) (k w : Nat) : SHAState :=
  let t1 := (st.h + sigmaBig1 st.e + chFun st.e st.f st.g + k + w) % 2 ^ 32
  let t2 := (sigmaBig0 st.a + majFun st.a st.b st.c) % 2 ^ 32
  ⟨(t1 + t2) % 2 ^ 32, st.a, st.b, st.c, (st.d + t1) % 2 ^ 32, st.e, st.f, st.g⟩

/-- Run the 64 rounds over the paired constants and schedule words. -/
def shaRounds : List Nat → List Nat → SHAState → SHAState
  | k :: ks, w :: ws, st => shaRounds ks ws (shaRound st k w)
  | _, _, st => st

/-- Split a 64-byte block into 16 big-endian 32-bit words. -/
def toWordsGo : Nat → List Nat → List Nat
  | 0, _ => []
  | k + 1, bs => beVal (bs.take 4) :: toWordsGo k (bs.drop 4)

/-- Extend the 16 block words to the 64-entry message schedule. -/
def extendW : Nat → List Nat → List Nat
  | 0, ws => ws
  | n + 1, ws =>
    let t := ws.length
    let w := (sigmaSmall1 (ws.getD (t - 2) 0) + ws.getD (t - 7) 0 +
              sigmaSmall0 (ws.getD (t - 15) 0) + ws.getD (t - 16) 0) % 2 ^ 32
    extendW n (ws ++ [w])

/-- Compress one 64-byte block into the running hash state. -/
def shaProcessBlock (st : SHAState) (block : List Nat) : SHAState :=
  let ws := extendW 48 (toWordsGo 16 block)
  let r := shaRounds shaK ws st
  ⟨(st.a + r.a) % 2 ^ 32, (st.b + r.b) % 2 ^ 32, (st.c + r.c) % 2 ^ 32,
   (st.d + r.d) % 2 ^ 32, (st.e + r.e) % 2 ^ 32, (st.f + r.f) % 2 ^ 32,
   (st.g + r.g) % 2 ^ 32, (st.h + r.h) % 2 ^ 32⟩

/-- SHA-256 padding: `0x80`, zeros to 56 mod 64, and the bit length. -/
def shaPad (msg : List Nat) : List Nat :=
  msg ++ 0x80 :: List.replicate ((119 - msg.length % 64) % 64) 0 ++
    beBytes 8 (8 * msg.length)

/-- Split the padded message into 64-byte chunks (fuel = chunk count). -/
def toChunks64 : Nat → List Nat → List (List Nat)
  | 0, _ => []
  | k + 1, bs => bs.take 64 :: toChunks64 k (bs.drop 64)

/-- SHA-256 of a byte slice. -/
def sha256 (msg : List Nat) : List Nat :=
  let padded := shaPad msg
  let fin := (toChunks64 (padded.length / 64) padded).foldl shaProcessBlock shaInit
  beBytes 4 fin.a ++ beBytes 4 fin.b ++ beBytes 4 fin.c ++ beBytes 4 fin.d ++
    beBytes 4 fin.e ++ beBytes 4 fin.f ++ beBytes 4 fin.g ++ beBytes 4 fin.h

/-- `HashToken` (crypto.go:27-31): lower-case hex of the salt-free SHA-256
of the raw token bytes. -/
def HashToken (token : List Nat) : String :=
  hexEncode (sha256 token)

/-- UTF-8 bytes of a string, for hashing string tokens (`[]byte(token)`). -/
def strBytes (s : String) : List Nat :=
  s.toUTF8.toList.map (fun b => b.toNat)

/-- `HashToken` applied to a Go string. -/
def hashTokenStr (s : String) : String :=
  HashToken (strBytes s)

/-! SRS publish webhook (`OnPublishHandler`, main.go:1896-2014) -/

/-- The fields of the SRS `on_publish` callback body the handler reads. -/
structure PublishPayload where
  stream : String
  param : String
  ip : String
  deriving DecidableEq

/-- The columns of a `channels` row the publish hook selects. -/
structure DbChannel where
  id : Int
  name : String
  obsTokenHash : Option String
  loopTokenHash : Option String
  obsToken : String
  loopToken : String
  enabled : Bool
  deriving DecidableEq

/-- `strings.TrimPrefix(param, "?token=")`. -/
def trimTokenParam (s : String) : String :=
  if List.isPrefixOf "?token=".data s.data then String.mk (s.data.drop 7) else s

/-- `strings.HasSuffix(stream, "-obs")`. -/
def hasObsSfx (s : String) : Bool :=
  List.isSuffixOf "-obs".data s.data

/-- `strings.TrimSuffix(stream, "-obs")`, given the suffix is present. -/
def dropObsSfx (s : String) : String :=
  String.mk (s.data.take (s.data.length - 4))

/-- `SELECT ... FROM channels WHERE name = $1 AND enabled = true`. -/
def findChannelByName (channels : List DbChannel) (nm : String) :
    Option DbChannel :=
  channels.find? (fun ch => ch.name == nm && ch.enabled)

/-- `SELECT ... FROM channels WHERE obs_token = $1 AND enabled = true`. -/
def findChannelByObsToken (channels : List DbChannel) (tok : String) :
    Option DbChannel :=
  channels.find? (fun ch => ch.obsToken == tok && ch.enabled)

/-- `sql.NullString` equality check: `ns.Valid && ns.String == s`. -/
def nullStringEq (ns : Option String) (s : String) : Bool :=
  match ns with
  | some v => v == s
  | none => false

/-- `sql.NullString` mismatch check: `ns.Valid && ns.String != s`. -/
def nullStringNe (ns : Option String) (s : String) : Bool :=
  match ns with
  | some v => v != s
  | none => false

/-- The authentication part of `OnPublishHandler` (main.go:1915-1987):
normalise the stream name, look the channel up (with the token-as-stream
fallback), enforce the OBS token for `-obs` streams, and classify the token
as OBS or LOOP via the hash comparisons or the legacy plaintext fallback.
Returns the matched channel, the base stream name and the source type on
acceptance, and `none` on any rejection. -/
def publishAuth (channels : List DbChannel) (pl : PublishPayload) :
    Option (DbChannel × String × String) :=
  let token := trimTokenParam pl.param
  let isObs0 := hasObsSfx pl.stream
  let streamName := if isObs0 then dropObsSfx pl.stream else pl.stream
  let tokenHash := hashTokenStr token
  let looked : Option (DbChannel × Bool) :=
    match findChannelByName channels streamName with
    | some ch => some (ch, isObs0)
    | none =>
      match findChannelByObsToken channels streamName with
      | some ch => some (ch, true)
      | none => none
  match looked with
  | none => none
  | some (ch, isObs) =>
    let obsReject :=
      isObs && decide (token ≠ ch.obsToken) && nullStringNe ch.obsTokenHash tokenHash
    if obsReject then none
    else
      let srcType : Option String :=
        if nullStringEq ch.obsTokenHash tokenHash then some "OBS"
        else if nullStringEq ch.loopTokenHash tokenHash then some "LOOP"
        else if token = ch.obsToken then some "OBS"
        else if token = ch.loopToken then some "LOOP"
        else none
      match srcType with
      | some s => some (ch, streamName, s)
      | none => none

/-- Outcome of the publish hook: the new controller state, the HTTP body
(`some "0"` on accept, `none` for an error response), and the accepted
source type. -/
structure PublishResult where
  st : CtrlState
  response : Option String
  sourceType : Option String

/-- The `details` JSON of the publish audit row. -/
def auditDetails (srcType : String) : String :=
  "\x7b\"source\": \"" ++ srcType ++ "\"\x7d"

/-- `OnPublishHandler` (main.go:1896-2014): on an accepted OBS publish,
install the takeover cooldown, request an asynchronous stop of the loop
container, and persist `current_active_source = OBS`; on any accepted
publish, append the audit row and answer `"0"`.  Rejections leave the
state unchanged. -/
def OnPublishHandler (channels : List DbChannel) (pl : PublishPayload)
    (now : Int) (st : CtrlState) : PublishResult :=
  match publishAuth channels pl with
  | none => ⟨st, none, none⟩
  | some (_, streamName, srcType) =>
    let st1 :=
      if srcType = "OBS" then
        { st with
          takeoverCooldown := setOpt st.takeoverCooldown streamName (some now)
          loopStops := st.loopStops ++ ["loop-" ++ streamName]
          dbActiveSource := setStr st.dbActiveSource streamName "OBS" }
      else st
    let st2 := { st1 with
      auditLogs := st1.auditLogs ++
        [⟨"STREAM_PUBLISH", "channel", pl.stream, auditDetails srcType, pl.ip⟩] }
    ⟨st2, some "0", some srcType⟩

/-! Concrete inputs used by the witnesses and the counterexample -/

/-- An enabled channel with no persisted source override. -/
def chW : Channel := ⟨7, "alpha", true, true, true, "obstok", "looptok", "", 60⟩

/-- SRS reports a robust OBS publish on `alpha-obs`. -/
def streamsW : String → Option SRSStream :=
  fun n => if n = "alpha-obs" then some ⟨true, 2500, 1280⟩ else none

/-- Empty SRS stream map. -/
def streamsNone : String → Option SRSStream := fun _ => none

/-- A fresh controller state. -/
def stW : CtrlState :=
  ⟨fun _ => "", fun _ => false, fun _ => none, fun _ => [], fun _ => "", [], []⟩

/-- Controller state with a takeover cooldown installed for `alpha` at 0. -/
def stCooldown : CtrlState :=
  ⟨fun _ => "", fun _ => false, fun n => if n = "alpha" then some 0 else none,
   fun _ => [], fun _ => "", [], []⟩

/-- Channel for the C2 counterexample: the persisted source is `OBS`
(as the publish webhook writes it) while the operator-set manual loop
override is still held in memory; auto-preemption is even disabled. -/
def chC2 : Channel := ⟨1, "beta", true, true, false, "tok", "ltok", "OBS", 60⟩

/-- SRS reports a robust OBS publish on `beta-obs`, so the tick does not
clear the manual override. -/
def streamsC2 : String → Option SRSStream :=
  fun n => if n = "beta-obs" then some ⟨true, 2500, 1280⟩ else none

/-- Controller state with the manual loop override held for `beta`. -/
def stC2 : CtrlState :=
  ⟨fun _ => "", fun n => n == "beta", fun _ => none, fun _ => [],
   fun _ => "", [], []⟩

/-- Controller state with the override held for `alpha` and `LOOP` both in
memory and in the store. -/
def stOv : CtrlState :=
  ⟨fun n => if n = "alpha" then "LOOP" else "", fun n => n == "alpha",
   fun _ => none, fun _ => [], fun _ => "", [], []⟩

/-- Channel like `chW` but with persisted source `LOOP`. -/
def chOv : Channel := ⟨7, "alpha", true, true, true, "obstok", "looptok", "LOOP", 60⟩

/-- A relay state with one distributor `d1` carrying two failures. -/
def relayW : RelayState :=
  ⟨⟨"rtmp://x/a", ["d1"], 0, 0, 0⟩, "LOOP", 0, false, 0,
   fun u => u == "d1", fun _ => 0, fun u => if u == "d1" then some 2 else none⟩

/-- The constant-zero block cipher used to instantiate the GCM theorem. -/
def zeroCipher : List Nat → List Nat := fun _ => List.replicate 16 0

/-- A 96-bit nonce. -/
def nonceW : List Nat := List.replicate 12 0

/-- A three-byte plaintext token. -/
def ptW : List Nat := [7, 200, 0]

/-- One channel row with hash columns NULL (legacy plaintext tokens). -/
def dbChannelsW : List DbChannel :=
  [⟨3, "gamma", none, none, "obsg", "loopg", true⟩]

/-- A publish of the loop token on the plain stream name. -/
def plLoopW : PublishPayload := ⟨"gamma", "?token=loopg", "5.6.7.8"⟩

/-! Theorems

Projection lemmas for `ReconcileChannel` on an enabled channel, shared by
the claims about the reconciler. -/

theorem reconcile_map_eq (window : Nat) (now : Int) (ch : Channel)
    (streams : String → Option SRSStream) (st : CtrlState)
    (hen : ch.enabled = true) :
    (ReconcileChannel window now ch streams st).st.activeSourceMap =
      postRuleMap ch streams st := by
  simp only [ReconcileChannel]
  rw [if_pos hen]
  split <;> first | rfl | (split <;> rfl)

theorem reconcile_override_eq (window : Nat) (now : Int) (ch : Channel)
    (streams : String → Option SRSStream) (st : CtrlState)
    (hen : ch.enabled = true) :
    (ReconcileChannel window now ch streams st).st.manualLoopOverride =
      postOverrideMap ch streams st := by
  simp only [ReconcileChannel]
  rw [if_pos hen]
  split <;> first | rfl | (split <;> rfl)

theorem reconcile_sched_eq (window : Nat) (now : Int) (ch : Channel)
    (streams : String → Option SRSStream) (st : CtrlState)
    (hen : ch.enabled = true) :
    (ReconcileChannel window now ch streams st).scheduledStoreUpdate =
      postRuleSched ch streams st := by
  simp only [ReconcileChannel]
  rw [if_pos hen]
  split <;> first | rfl | (split <;> rfl)

theorem reconcile_event_eq (window : Nat) (now : Int) (ch : Channel)
    (streams : String → Option SRSStream) (st : CtrlState)
    (hen : ch.enabled = true) :
    (ReconcileChannel window now ch streams st).autoSwitchEvent =
      autoFire ch streams st := by
  simp only [ReconcileChannel]
  rw [if_pos hen]
  split <;> first | rfl | (split <;> rfl)

/-- C3: on every tick of an enabled channel with an installed
takeover-cooldown timestamp `t`, while `now − t < failover_timeout` the
loop child is not started (the tick issues `EnsureContainerStopped` and
skips loop supervision) and the cooldown entry is retained; once
`now − t ≥ failover_timeout` the entry is deleted and loop supervision
resumes (`EnsureContainerRunning` iff `loop_enabled`). -/
theorem claim3_takeover_cooldown (window : Nat) (now t : Int) (ch : Channel)
    (streams : String → Option SRSStream) (st : CtrlState)
    (hen : ch.enabled = true) (hcd : st.takeoverCooldown ch.name = some t) :
    (now - t < effFailoverTimeout ch →
      (ReconcileChannel window now ch streams st).loopAction = LoopAction.stopped ∧
      (ReconcileChannel window now ch streams st).st.takeoverCooldown ch.name = some t) ∧
    (effFailoverTimeout ch ≤ now - t →
      (ReconcileChannel window now ch streams st).st.takeoverCooldown ch.name = none ∧
      (ReconcileChannel window now ch streams st).loopAction =
        (if ch.loopEnabled then LoopAction.running else LoopAction.stopped)) := by
  simp only [ReconcileChannel]
  rw [if_pos hen]
  split
  next t2 heq =>
    rw [hcd] at heq
    cases heq
    constructor
    · intro hlt
      rw [if_pos hlt]
      exact ⟨rfl, hcd⟩
    · intro hge
      rw [if_neg (not_lt.mpr hge)]
      exact ⟨by simp [setOpt], rfl⟩
  next heq =>
    rw [hcd] at heq
    cases heq

/-- Witness for C3: channel `alpha` (timeout 60 s) with a cooldown stamped
at time 0 keeps the loop stopped at `now = 10` and resumes at `now = 100`. -/
theorem claim3_witness :
    (chW.enabled = true ∧ stCooldown.takeoverCooldown chW.name = some 0 ∧
      (10 : Int) - 0 < effFailoverTimeout chW ∧
      effFailoverTimeout chW ≤ (100 : Int) - 0) ∧
    ((ReconcileChannel 3 10 chW streamsW stCooldown).loopAction = LoopAction.stopped ∧
      (ReconcileChannel 3 10 chW streamsW stCooldown).st.takeoverCooldown chW.name = some 0) ∧
    ((ReconcileChannel 3 100 chW streamsW stCooldown).st.takeoverCooldown chW.name = none ∧
      (ReconcileChannel 3 100 chW streamsW stCooldown).loopAction =
        (if chW.loopEnabled then LoopAction.running else LoopAction.stopped)) :=
  ⟨⟨rfl, by decide, by decide, by decide⟩,
    (claim3_takeover_cooldown 3 10 0 chW streamsW stCooldown rfl (by decide)).1 (by decide),
    (claim3_takeover_cooldown 3 100 0 chW streamsW stCooldown rfl (by decide)).2 (by decide)⟩

/-- C4: on every tick of an enabled channel, the manual loop override after
the tick equals the prior value conjoined with `primary_up`: a tick that
observes `primary_up = false` removes an existing override, and no tick
that observes `primary_up = true` removes it. -/
theorem claim4_override_clearing (window : Nat) (now : Int) (ch : Channel)
    (streams : String → Option SRSStream) (st : CtrlState)
    (hen : ch.enabled = true) :
    (ReconcileChannel window now ch streams st).st.manualLoopOverride ch.name =
      (st.manualLoopOverride ch.name && obsRobust ch streams) := by
  rw [reconcile_override_eq _ _ _ _ _ hen]
  simp only [postOverrideMap, clearedOverride]
  by_cases hob : obsRobust ch streams = true
  · simp [hob]
  · simp only [Bool.not_eq_true] at hob
    by_cases hm : st.manualLoopOverride ch.name = true
    · simp [hob, hm, setBool]
    · simp only [Bool.not_eq_true] at hm
      simp [hob, hm]

/-- Witness for C4: on channel `alpha` with no override and a robust OBS
publish, the override stays clear. -/
theorem claim4_witness :
    chW.enabled = true ∧
    (ReconcileChannel 3 5 chW streamsW stW).st.manualLoopOverride chW.name =
      (stW.manualLoopOverride chW.name && obsRobust chW streamsW) :=
  ⟨rfl, claim4_override_clearing 3 5 chW streamsW stW rfl⟩

/-- C7: `UpdateHealthHistory` keeps every buffer within the stability
window: from a buffer within bounds, the updated buffer is within bounds,
a non-full buffer just gets the new sample appended, and a full buffer
drops its oldest entry while appending the newest (bounded FIFO). -/
theorem claim7_health_history_bounded (window : Nat) (h : List Bool) (b : Bool)
    (hlen : h.length ≤ window) :
    (UpdateHealthHistory window h b).length ≤ window ∧
    (h.length < window → UpdateHealthHistory window h b = h ++ [b]) ∧
    (h.length = window → 0 < window →
      UpdateHealthHistory window h b = h.drop 1 ++ [b]) := by
  unfold UpdateHealthHistory
  rcases lt_or_eq_of_le hlen with hlt | heq
  · have hno : ¬ window < (h ++ [b]).length := by
      simp only [List.length_append, List.length_singleton]
      omega
    rw [if_neg hno]
    exact ⟨by simp only [List.length_append, List.length_singleton]; omega,
      fun _ => rfl, fun he _ => absurd he (by omega)⟩
  · have hw : window < (h ++ [b]).length := by
      simp only [List.length_append, List.length_singleton]
      omega
    rw [if_pos hw]
    refine ⟨by simp only [List.length_drop, List.length_append,
        List.length_singleton]; omega,
      fun hlt2 => absurd hlt2 (by omega), fun _ _ => ?_⟩
    rw [List.drop_append_of_le_length (by omega)]

/-- Witness for C7: a full window-3 buffer drops its oldest sample. -/
theorem claim7_witness :
    ([true, false, true] : List Bool).length ≤ 3 ∧
    ((UpdateHealthHistory 3 [true, false, true] false).length ≤ 3 ∧
      (([true, false, true] : List Bool).length < 3 →
        UpdateHealthHistory 3 [true, false, true] false = [true, false, true] ++ [false]) ∧
      (([true, false, true] : List Bool).length = 3 → 0 < 3 →
        UpdateHealthHistory 3 [true, false, true] false =
          ([true, false, true] : List Bool).drop 1 ++ [false])) :=
  ⟨by decide, claim7_health_history_bounded 3 [true, false, true] false (by decide)⟩

/-- The auto-switch rule fires exactly when the four spec conditions hold:
`primary_override_enabled`, single-sample `primary_up`, resolved source not
already OBS, and no manual loop override held at the start of the tick. -/
theorem autoFire_iff (ch : Channel) (streams : String → Option SRSStream)
    (st : CtrlState) :
    autoFire ch streams st = true ↔
      (ch.obsOverrideEnabled = true ∧ obsRobust ch streams = true ∧
        resolvedSource ch st.activeSourceMap ≠ "OBS" ∧
        st.manualLoopOverride ch.name = false) := by
  by_cases hob : obsRobust ch streams = true
  · by_cases hm : st.manualLoopOverride ch.name = true
    · simp [autoFire, clearedOverride, hob, hm]
    · simp only [Bool.not_eq_true] at hm
      simp [autoFire, clearedOverride, hob, hm, and_assoc]
  · simp only [Bool.not_eq_true] at hob
    simp [autoFire, hob]

/-- C1: on every tick of an enabled channel, if `primary_override_enabled`,
`primary_up` (single-sample robust liveness), the resolved current source
is not PRIMARY, and no manual loop override is held, then the tick writes
`OBS` into the in-memory active-source map, schedules the asynchronous
store update `UpdateActiveSource(id, OBS)`, and emits the auto-switch
audit/log event; if any of the four conditions fails, the rule leaves the
source map entry at its post-sync value, schedules nothing, and emits no
event. -/
theorem claim1_auto_preemption (window : Nat) (now : Int) (ch : Channel)
    (streams : String → Option SRSStream) (st : CtrlState)
    (hen : ch.enabled = true) :
    ((ch.obsOverrideEnabled = true ∧ obsRobust ch streams = true ∧
        resolvedSource ch st.activeSourceMap ≠ "OBS" ∧
        st.manualLoopOverride ch.name = false) →
      (ReconcileChannel window now ch streams st).st.activeSourceMap ch.name = "OBS" ∧
      (ReconcileChannel window now ch streams st).scheduledStoreUpdate = some (ch.id, "OBS") ∧
      (ReconcileChannel window now ch streams st).autoSwitchEvent = true) ∧
    (¬(ch.obsOverrideEnabled = true ∧ obsRobust ch streams = true ∧
        resolvedSource ch st.activeSourceMap ≠ "OBS" ∧
        st.manualLoopOverride ch.name = false) →
      (ReconcileChannel window now ch streams st).st.activeSourceMap ch.name =
        syncedMap ch st.activeSourceMap ch.name ∧
      (ReconcileChannel window now ch streams st).scheduledStoreUpdate = none ∧
      (ReconcileChannel window now ch streams st).autoSwitchEvent = false) := by
  rw [reconcile_map_eq _ _ _ _ _ hen, reconcile_sched_eq _ _ _ _ _ hen,
    reconcile_event_eq _ _ _ _ _ hen]
  constructor
  · intro hc
    have hf : autoFire ch streams st = true := (autoFire_iff ch streams st).mpr hc
    exact ⟨by simp [postRuleMap, hf, setStr], by simp [postRuleSched, hf], hf⟩
  · intro hc
    have hf : autoFire ch streams st = false := by
      cases hfb : autoFire ch streams st
      · rfl
      · exact absurd ((autoFire_iff ch streams st).mp hfb) hc
    exact ⟨by simp [postRuleMap, hf], by simp [postRuleSched, hf], hf⟩

/-- Witness for C1: channel `alpha` with override enabled, a robust OBS
publish, source `LOOP` and no override auto-switches to OBS. -/
theorem claim1_witness :
    (chW.enabled = true ∧ chW.obsOverrideEnabled = true ∧
      obsRobust chW streamsW = true ∧
      resolvedSource chW stW.activeSourceMap ≠ "OBS" ∧
      stW.manualLoopOverride chW.name = false) ∧
    ((ReconcileChannel 3 5 chW streamsW stW).st.activeSourceMap chW.name = "OBS" ∧
      (ReconcileChannel 3 5 chW streamsW stW).scheduledStoreUpdate = some (chW.id, "OBS") ∧
      (ReconcileChannel 3 5 chW streamsW stW).autoSwitchEvent = true) :=
  ⟨⟨rfl, rfl, by decide, by decide, rfl⟩,
    (claim1_auto_preemption 3 5 chW streamsW stW rfl).1
      ⟨rfl, by decide, by decide, rfl⟩⟩

/-- C2 counterexample: the claim that no step moves the source to PRIMARY
while the manual loop override holds is false.  With the override held for
`beta`, the persisted source already `OBS` (exactly what the publish
webhook writes), and OBS robust (so the tick does not clear the override),
the store-sync step of the tick adopts `OBS` into the in-memory map while the
override is still held — even though auto-preemption is disabled for the
channel. -/
theorem claim2_counterexample :
    stC2.manualLoopOverride "beta" = true ∧
    chC2.obsOverrideEnabled = false ∧
    (ReconcileChannel 3 50 chC2 streamsC2 stC2).st.activeSourceMap "beta" = "OBS" ∧
    (ReconcileChannel 3 50 chC2 streamsC2 stC2).st.manualLoopOverride "beta" = true := by
  refine ⟨by decide, rfl, by decide, by decide⟩

/-- C2 (amended): while the manual loop override is held at the start of a
tick, the tick itself never switches the source to PRIMARY — provided the
persisted `current_active_source` is not already `OBS` (the store-sync
step adopts the persisted value unconditionally, so a persisted `OBS`
written by the takeover endpoint or the publish webhook does land in the
map even while the override holds, as the counterexample shows).  In
particular the auto-preemption rule never fires while the override is
held: no store update is scheduled and no auto-switch event is emitted. -/
theorem claim2_override_blocks_auto_preemption (window : Nat) (now : Int)
    (ch : Channel) (streams : String → Option SRSStream) (st : CtrlState)
    (hov : st.manualLoopOverride ch.name = true)
    (hdb : ch.activeSource ≠ "OBS")
    (hmap : st.activeSourceMap ch.name ≠ "OBS") :
    defaultedSource
        ((ReconcileChannel window now ch streams st).st.activeSourceMap ch.name) ≠ "OBS" ∧
    (ReconcileChannel window now ch streams st).scheduledStoreUpdate = none ∧
    (ReconcileChannel window now ch streams st).autoSwitchEvent = false := by
  have hsync : defaultedSource (syncedMap ch st.activeSourceMap ch.name) ≠ "OBS" := by
    by_cases hs : ch.activeSource ≠ "" ∧
        ch.activeSource ≠ defaultedSource (st.activeSourceMap ch.name)
    · rw [syncedMap, if_pos hs]
      have hset : setStr st.activeSourceMap ch.name ch.activeSource ch.name =
          ch.activeSource := by simp [setStr]
      rw [hset, defaultedSource, if_neg hs.1]
      exact hdb
    · rw [syncedMap, if_neg hs]
      simp only [defaultedSource]
      by_cases hm0 : st.activeSourceMap ch.name = ""
      · rw [if_pos hm0]
        decide
      · rw [if_neg hm0]
        exact hmap
  by_cases hen : ch.enabled = true
  · have hf : autoFire ch streams st = false := by
      cases hfb : autoFire ch streams st
      · rfl
      · have := ((autoFire_iff ch streams st).mp hfb).2.2.2
        rw [hov] at this
        cases this
    rw [reconcile_map_eq _ _ _ _ _ hen, reconcile_sched_eq _ _ _ _ _ hen,
      reconcile_event_eq _ _ _ _ _ hen]
    refine ⟨?_, by simp [postRuleSched, hf], hf⟩
    simpa only [postRuleMap, hf, Bool.false_eq_true, if_false] using hsync
  · have hen' : ch.enabled = false := by
      cases h : ch.enabled
      · rfl
      · exact absurd h hen
    simp only [ReconcileChannel]
    rw [if_neg (by simp [hen'])]
    refine ⟨?_, rfl, rfl⟩
    simp only [defaultedSource]
    by_cases hm0 : st.activeSourceMap ch.name = ""
    · rw [if_pos hm0]
      decide
    · rw [if_neg hm0]
      exact hmap

/-- Witness for the amended C2: with the override held for `alpha` and
`LOOP` both in memory and in the store, a tick with a robust OBS publish
leaves the source off PRIMARY and fires nothing. -/
theorem claim2_witness :
    (stOv.manualLoopOverride chOv.name = true ∧ chOv.activeSource ≠ "OBS" ∧
      stOv.activeSourceMap chOv.name ≠ "OBS") ∧
    (defaultedSource
        ((ReconcileChannel 3 5 chOv streamsW stOv).st.activeSourceMap chOv.name) ≠ "OBS" ∧
      (ReconcileChannel 3 5 chOv streamsW stOv).scheduledStoreUpdate = none ∧
      (ReconcileChannel 3 5 chOv streamsW stOv).autoSwitchEvent = false) :=
  ⟨⟨by decide, by decide, by decide⟩,
    claim2_override_blocks_auto_preemption 3 5 chOv streamsW stOv
      (by decide) (by decide) (by decide)⟩

/-- C5: distributor restart backoff — a restart with failure count `n > 0`
sleeps `n × 2` seconds; a run longer than 60 s resets the count to 0 and a
run of at most 60 s increments it by 1 (so consecutive fast failures give
2 s, 4 s, …, n × 2 s); removing a destination from the set terminates its
distributor (it leaves the managed set) and purges its failure counter. -/
theorem claim5_distributor_backoff :
    (∀ n, 0 < n → startDistributorDelay n = n * 2) ∧
    (∀ r f, 60 < r → distributorBackoffUpdate r f = 0) ∧
    (∀ r f, r ≤ 60 → distributorBackoffUpdate r f = f + 1) ∧
    (∀ (d : List String) (s : RelayState) (u : String),
      s.dists u = true → u ∉ d →
      (manageDistributors d s).dists u = false ∧
      (manageDistributors d s).failureCounts u = none) := by
  refine ⟨fun n hn => if_pos hn, fun r f hr => if_pos hr,
    fun r f hr => if_neg (by omega), fun d s u hd hnd => ⟨?_, ?_⟩⟩
  · simp [manageDistributors, hnd]
  · simp [manageDistributors, hd, hnd]

/-- Witness for C5 at failure count 5, runs of 61 s and 59 s, and removal
of destination `d1`. -/
theorem claim5_witness :
    (0 < 5 ∧ 60 < 61 ∧ 59 ≤ 60 ∧ relayW.dists "d1" = true ∧
      "d1" ∉ ([] : List String)) ∧
    startDistributorDelay 5 = 5 * 2 ∧
    distributorBackoffUpdate 61 7 = 0 ∧
    distributorBackoffUpdate 59 4 = 4 + 1 ∧
    ((manageDistributors [] relayW).dists "d1" = false ∧
      (manageDistributors [] relayW).failureCounts "d1" = none) :=
  ⟨⟨by decide, by decide, by decide, by decide, by decide⟩,
    claim5_distributor_backoff.1 5 (by decide),
    claim5_distributor_backoff.2.1 61 7 (by decide),
    claim5_distributor_backoff.2.2.1 59 4 (by decide),
    claim5_distributor_backoff.2.2.2 [] relayW "d1" (by decide) (by decide)⟩

/-- `manageDistributors` leaves the relay config untouched. -/
theorem manageDistributors_config (d : List String) (s : RelayState) :
    (manageDistributors d s).config = s.config := rfl

/-- `manageDistributors` leaves the transcoder flag untouched. -/
theorem manageDistributors_transcoder (d : List String) (s : RelayState) :
    (manageDistributors d s).transcoderRunning = s.transcoderRunning := rfl

/-- Reconciling the same destination set twice is a no-op the second time. -/
theorem manageDistributors_idem (d : List String) (s : RelayState) :
    manageDistributors d (manageDistributors d s) = manageDistributors d s := by
  cases s with
  | mk cfg mode og tr tg di ds fc =>
    simp only [manageDistributors, RelayState.mk.injEq]
    refine ⟨?_, ?_, ?_, ?_, ?_, ?_, ?_, ?_⟩ <;>
      first
      | trivial
      | (funext u; by_cases h : u ∈ d <;> simp [h])

/-- The source-change stage always records the new config. -/
theorem applySourceChange_config (p : RelayConfig) (s : RelayState) :
    (applySourceChange p s).config = p := by
  unfold applySourceChange switchMode startOBSPump
  split_ifs <;> rfl

/-- The transcoder stage leaves the config untouched. -/
theorem ensureTranscoder_config (s : RelayState) :
    (ensureTranscoder s).config = s.config := by
  unfold ensureTranscoder
  split_ifs <;> rfl

/-- After the transcoder stage the transcoder is running. -/
theorem ensureTranscoder_running (s : RelayState) :
    (ensureTranscoder s).transcoderRunning = true := by
  unfold ensureTranscoder
  split_ifs with h
  · exact h
  · rfl

/-- `handleConfigChange` ends with the posted config recorded. -/
theorem handleConfigChange_config (p : RelayConfig) (s : RelayState) :
    (handleConfigChange p s).config = p := by
  rw [handleConfigChange, manageDistributors_config, ensureTranscoder_config,
    applySourceChange_config]

/-- `handleConfigChange` ends with the transcoder running. -/
theorem handleConfigChange_transcoder (p : RelayConfig) (s : RelayState) :
    (handleConfigChange p s).transcoderRunning = true := by
  rw [handleConfigChange, manageDistributors_transcoder, ensureTranscoder_running]

/-- A source-change stage on a state already carrying the config is a
no-op: the URL comparison sees no change, so no pump is touched. -/
theorem applySourceChange_self (p : RelayConfig) (s : RelayState)
    (hc : s.config = p) : applySourceChange p s = s := by
  cases s with
  | mk cfg mode og tr tg di ds fc =>
    cases hc
    simp [applySourceChange]

/-- The transcoder stage is a no-op when the transcoder already runs. -/
theorem ensureTranscoder_self (s : RelayState)
    (ht : s.transcoderRunning = true) : ensureTranscoder s = s := by
  unfold ensureTranscoder
  rw [if_pos ht]

/-- C6: `POST /update` is idempotent — repeating the same payload
immediately returns 200 again and changes nothing: the whole relay state
(mode flag, pump and transcoder generation counters, distributor set and
start counters) is unchanged, and `GET /status` reports the same. -/
theorem claim6_update_idempotent (p : RelayConfig) (s : RelayState) :
    handleUpdate true (some p) ((handleUpdate true (some p) s).2) =
      (200, (handleUpdate true (some p) s).2) ∧
    handleStatus (handleUpdate true (some p) ((handleUpdate true (some p) s).2)).2 =
      handleStatus ((handleUpdate true (some p) s).2) := by
  have hid : handleConfigChange p (handleConfigChange p s) = handleConfigChange p s := by
    rw [show handleConfigChange p (handleConfigChange p s) =
        manageDistributors p.destinations
          (ensureTranscoder (applySourceChange p (handleConfigChange p s))) from rfl]
    rw [applySourceChange_self p _ (handleConfigChange_config p s),
      ensureTranscoder_self _ (handleConfigChange_transcoder p s)]
    rw [show handleConfigChange p s =
        manageDistributors p.destinations
          (ensureTranscoder (applySourceChange p s)) from rfl]
    exact manageDistributors_idem _ _
  constructor
  · show (200, handleConfigChange p (handleConfigChange p s)) = _
    rw [hid]
    rfl
  · show handleStatus (handleConfigChange p (handleConfigChange p s)) = _
    rw [hid]
    rfl

/-- C9: any well-formed POST to the relay `/update` endpoint is answered 200, a
body that fails to decode included; a failed decode is processed as the
zero-value configuration (empty source URL, empty destination list), which
is applied as a real configuration change — in particular it empties the
distributor set. -/
theorem claim9_update_bad_body (s : RelayState) (decoded : Option RelayConfig) :
    (handleUpdate true decoded s).1 = 200 ∧
    (handleUpdate true none s).2 = handleConfigChange zeroRelayConfig s ∧
    (handleUpdate true none s).2.config = zeroRelayConfig ∧
    (handleUpdate true none s).2.dists = fun _ => false := by
  refine ⟨rfl, rfl, handleConfigChange_config _ _, ?_⟩
  funext u
  show (manageDistributors zeroRelayConfig.destinations _).dists u = false
  simp [manageDistributors, zeroRelayConfig]

/-- C10: a publish accepted with source type LOOP leaves the takeover
cooldown, the in-memory active-source map, the manual loop override, the
persisted `current_active_source`, the loop-stop requests and the health
history all unchanged; its only state effects are the appended publish
audit row and the accept body `"0"`. -/
theorem claim10_loop_publish_frame (channels : List DbChannel)
    (pl : PublishPayload) (now : Int) (st : CtrlState)
    (hl : (OnPublishHandler channels pl now st).sourceType = some "LOOP") :
    (OnPublishHandler channels pl now st).st.takeoverCooldown = st.takeoverCooldown ∧
    (OnPublishHandler channels pl now st).st.activeSourceMap = st.activeSourceMap ∧
    (OnPublishHandler channels pl now st).st.manualLoopOverride = st.manualLoopOverride ∧
    (OnPublishHandler channels pl now st).st.dbActiveSource = st.dbActiveSource ∧
    (OnPublishHandler channels pl now st).st.loopStops = st.loopStops ∧
    (OnPublishHandler channels pl now st).st.healthHistory = st.healthHistory ∧
    (OnPublishHandler channels pl now st).st.auditLogs =
      st.auditLogs ++ [⟨"STREAM_PUBLISH", "channel", pl.stream, auditDetails "LOOP", pl.ip⟩] ∧
    (OnPublishHandler channels pl now st).response = some "0" := by
  cases hpa : publishAuth channels pl with
  | none =>
    have hnone : (OnPublishHandler channels pl now st).sourceType = none := by
      unfold OnPublishHandler
      rw [hpa]
    rw [hnone] at hl
    cases hl
  | some trip =>
    obtain ⟨ch, sn, srcType⟩ := trip
    have hsome : (OnPublishHandler channels pl now st).sourceType = some srcType := by
      unfold OnPublishHandler
      rw [hpa]
    rw [hsome] at hl
    have hsrc : srcType = "LOOP" := Option.some.inj hl
    subst hsrc
    unfold OnPublishHandler
    rw [hpa]
    dsimp only
    rw [if_neg (by decide : ¬(("LOOP" : String) = "OBS"))]
    exact ⟨rfl, rfl, rfl, rfl, rfl, rfl, rfl, rfl⟩

/-- Witness for C10: channel `gamma` with NULL hash columns accepts the
legacy loop token; the handler only audits and answers `"0"`. -/
theorem claim10_witness :
    (OnPublishHandler dbChannelsW plLoopW 42 stW).sourceType = some "LOOP" ∧
    ((OnPublishHandler dbChannelsW plLoopW 42 stW).st.takeoverCooldown = stW.takeoverCooldown ∧
      (OnPublishHandler dbChannelsW plLoopW 42 stW).st.activeSourceMap = stW.activeSourceMap ∧
      (OnPublishHandler dbChannelsW plLoopW 42 stW).st.manualLoopOverride = stW.manualLoopOverride ∧
      (OnPublishHandler dbChannelsW plLoopW 42 stW).st.dbActiveSource = stW.dbActiveSource ∧
      (OnPublishHandler dbChannelsW plLoopW 42 stW).st.loopStops = stW.loopStops ∧
      (OnPublishHandler dbChannelsW plLoopW 42 stW).st.healthHistory = stW.healthHistory ∧
      (OnPublishHandler dbChannelsW plLoopW 42 stW).st.auditLogs =
        stW.auditLogs ++
          [⟨"STREAM_PUBLISH", "channel", plLoopW.stream, auditDetails "LOOP", plLoopW.ip⟩] ∧
      (OnPublishHandler dbChannelsW plLoopW 42 stW).response = some "0") :=
  ⟨by decide, claim10_loop_publish_frame dbChannelsW plLoopW 42 stW (by decide)⟩

/-! Lemmas for the credential round trip (C8). -/

theorem length_beBytes (w n : Nat) : (beBytes w n).length = w := by
  induction w generalizing n with
  | zero => rfl
  | succ w ih => simp [beBytes, ih]

theorem beBytes_lt (w n : Nat) : ∀ x ∈ beBytes w n, x < 256 := by
  induction w generalizing n with
  | zero => simp [beBytes]
  | succ w ih =>
    intro x hx
    simp only [beBytes, List.mem_append, List.mem_singleton] at hx
    rcases hx with hx | hx
    · exact ih _ x hx
    · subst hx
      exact Nat.mod_lt _ (by norm_num)

theorem length_ctrBlocks (E : List Nat → List Nat)
    (hE16 : ∀ b, (E b).length = 16) (k : Nat) :
    ∀ ctr, (ctrBlocks E ctr k).length = 16 * k := by
  induction k with
  | zero => intro ctr; rfl
  | succ k ih =>
    intro ctr
    simp only [ctrBlocks, List.length_append, hE16, ih]
    omega

theorem le_blocks_bound (n : Nat) : n ≤ 16 * ((n + 15) / 16) := by
  have h1 := Nat.div_add_mod (n + 15) 16
  have h2 : (n + 15) % 16 < 16 := Nat.mod_lt _ (by norm_num)
  omega

theorem keystream_length (E : List Nat → List Nat) (ctr : List Nat) (n : Nat)
    (hE16 : ∀ b, (E b).length = 16) : (keystream E ctr n).length = n := by
  simp only [keystream, List.length_take, length_ctrBlocks E hE16]
  exact Nat.min_eq_left (le_blocks_bound n)

theorem ctrBlocks_bytes (E : List Nat → List Nat)
    (hEb : ∀ b, ∀ x ∈ E b, x < 256) (k : Nat) :
    ∀ ctr, ∀ x ∈ ctrBlocks E ctr k, x < 256 := by
  induction k with
  | zero => simp [ctrBlocks]
  | succ k ih =>
    intro ctr x hx
    simp only [ctrBlocks, List.mem_append] at hx
    rcases hx with hx | hx
    · exact hEb _ x hx
    · exact ih _ x hx

theorem keystream_bytes (E : List Nat → List Nat) (ctr : List Nat) (n : Nat)
    (hEb : ∀ b, ∀ x ∈ E b, x < 256) : ∀ x ∈ keystream E ctr n, x < 256 :=
  fun x hx => ctrBlocks_bytes E hEb _ ctr x (List.mem_of_mem_take hx)

theorem xorBytes_length (a b : List Nat) :
    (xorBytes a b).length = min a.length b.length := by
  simp [xorBytes]

theorem xorBytes_bytes (a b : List Nat) (ha : ∀ x ∈ a, x < 256)
    (hb : ∀ x ∈ b, x < 256) : ∀ x ∈ xorBytes a b, x < 256 := by
  induction a generalizing b with
  | nil => simp [xorBytes]
  | cons a0 as ih =>
    intro x hx
    cases b with
    | nil => simp [xorBytes] at hx
    | cons b0 bs =>
      simp only [xorBytes, List.zipWith_cons_cons, List.mem_cons] at hx
      rcases hx with hx | hx
      · subst hx
        have h8 : (256 : Nat) = 2 ^ 8 := by norm_num
        rw [h8]
        exact Nat.xor_lt_two_pow (by rw [← h8]; exact ha a0 (by simp))
          (by rw [← h8]; exact hb b0 (by simp))
      · exact ih bs (fun y hy => ha y (by simp [hy])) (fun y hy => hb y (by simp [hy])) x hx

theorem xorBytes_cancel (a b : List Nat) (h : a.length ≤ b.length) :
    xorBytes (xorBytes a b) b = a := by
  induction a generalizing b with
  | nil => simp [xorBytes]
  | cons a0 as ih =>
    cases b with
    | nil => simp at h
    | cons b0 bs =>
      simp only [xorBytes, List.zipWith_cons_cons]
      simp only [List.length_cons, Nat.succ_le_succ_iff] at h
      rw [Nat.xor_cancel_right]
      have := ih bs h
      simp only [xorBytes] at this
      rw [this]

theorem gcmTag_length (E : List Nat → List Nat) (nonce c : List Nat)
    (hE16 : ∀ b, (E b).length = 16) : (gcmTag E nonce c).length = 16 := by
  simp only [gcmTag, xorBytes_length, length_beBytes, hE16, min_self]

theorem gcmTag_bytes (E : List Nat → List Nat) (nonce c : List Nat)
    (hEb : ∀ b, ∀ x ∈ E b, x < 256) : ∀ x ∈ gcmTag E nonce c, x < 256 := by
  intro x hx
  simp only [gcmTag] at hx
  exact xorBytes_bytes _ _ (beBytes_lt 16 _) (hEb _) x hx

theorem gcmSeal_bytes (E : List Nat → List Nat) (nonce pt : List Nat)
    (hEb : ∀ b, ∀ x ∈ E b, x < 256) (hptb : ∀ x ∈ pt, x < 256) :
    ∀ x ∈ gcmSeal E nonce pt, x < 256 := by
  intro x hx
  simp only [gcmSeal, List.mem_append] at hx
  rcases hx with hx | hx
  · exact xorBytes_bytes _ _ hptb (keystream_bytes E _ _ hEb) x hx
  · exact gcmTag_bytes E _ _ hEb x hx

theorem gcmOpen_gcmSeal (E : List Nat → List Nat) (nonce pt : List Nat)
    (hE16 : ∀ b, (E b).length = 16) :
    gcmOpen E nonce (gcmSeal E nonce pt) = some pt := by
  have hks : (keystream E (incCounter (nonce ++ [0, 0, 0, 1])) pt.length).length =
      pt.length := keystream_length E _ _ hE16
  have hc : (xorBytes pt (keystream E (incCounter (nonce ++ [0, 0, 0, 1]))
      pt.length)).length = pt.length := by
    rw [xorBytes_length, hks, min_self]
  have htag : (gcmTag E nonce (xorBytes pt
      (keystream E (incCounter (nonce ++ [0, 0, 0, 1])) pt.length))).length = 16 :=
    gcmTag_length E _ _ hE16
  simp only [gcmSeal, gcmOpen, List.length_append, hc, htag]
  rw [if_neg (by omega)]
  have hidx : pt.length + 16 - 16 =
      (xorBytes pt (keystream E (incCounter (nonce ++ [0, 0, 0, 1]))
        pt.length)).length := by
    rw [hc]
    omega
  rw [hidx, List.take_left, List.drop_left, if_pos rfl, hc]
  rw [xorBytes_cancel pt _ (by rw [hks])]

theorem hexDigit_roundtrip : ∀ n, n < 16 → hexDigitVal (hexDigitChar n) = some n := by
  decide

theorem hexDecodeChars_hexEncodeBytes (bs : List Nat) (hb : ∀ b ∈ bs, b < 256) :
    hexDecodeChars (hexEncodeBytes bs) = some bs := by
  induction bs with
  | nil => rfl
  | cons b bs ih =>
    have hblt : b < 256 := hb b (by simp)
    have hhi : b / 16 < 16 := by omega
    have hlo : b % 16 < 16 := Nat.mod_lt _ (by norm_num)
    simp only [hexEncodeBytes, List.flatMap_cons, List.cons_append, List.nil_append]
    show hexDecodeChars (hexDigitChar (b / 16) :: hexDigitChar (b % 16) ::
      hexEncodeBytes bs) = some (b :: bs)
    simp only [hexDecodeChars, hexDigit_roundtrip _ hhi, hexDigit_roundtrip _ hlo,
      ih (fun y hy => hb y (by simp [hy]))]
    have : 16 * (b / 16) + b % 16 = b := by
      have := Nat.div_add_mod b 16
      omega
    rw [this]

theorem hexDecode_hexEncode (bs : List Nat) (hb : ∀ b ∈ bs, b < 256) :
    hexDecode (hexEncode bs) = some bs := by
  show hexDecodeChars (String.mk (hexEncodeBytes bs)).data = some bs
  exact hexDecodeChars_hexEncodeBytes bs hb

theorem length_hexEncodeBytes (bs : List Nat) :
    (hexEncodeBytes bs).length = 2 * bs.length := by
  induction bs with
  | nil => rfl
  | cons b bs ih =>
    simp only [hexEncodeBytes, List.flatMap_cons] at ih ⊢
    simp [ih]
    omega

theorem sha256_length (msg : List Nat) : (sha256 msg).length = 32 := by
  simp [sha256, List.length_append, length_beBytes]

theorem HashToken_length (t : List Nat) : (HashToken t).length = 64 := by
  show (hexEncodeBytes (sha256 t)).length = 64
  rw [length_hexEncodeBytes, sha256_length]

/-- C8: the credential round trip — decrypting the hex ciphertext/nonce
pair produced by `Encrypt` under the same cipher instance recovers the
token exactly (for any block cipher `E` mapping 16-byte blocks to 16-byte
blocks, the shape `cipher.NewGCM` requires, AES-256 under the configured
key being one instance); and `HashToken` is a deterministic function whose
output always has exactly 64 hex characters (SHA-256). -/
theorem claim8_crypto_roundtrip (E : List Nat → List Nat)
    (nonce pt : List Nat)
    (hE16 : ∀ b, (E b).length = 16)
    (hEb : ∀ b, ∀ x ∈ E b, x < 256)
    (hnonce : nonce.length = 12)
    (hnb : ∀ x ∈ nonce, x < 256)
    (hptb : ∀ x ∈ pt, x < 256) :
    Decrypt E (Encrypt E nonce pt).1 (Encrypt E nonce pt).2 = some pt ∧
    ∀ t : List Nat, (HashToken t).length = 64 := by
  refine ⟨?_, HashToken_length⟩
  have h1 : hexDecode (hexEncode (gcmSeal E nonce pt)) = some (gcmSeal E nonce pt) :=
    hexDecode_hexEncode _ (gcmSeal_bytes E nonce pt hEb hptb)
  have h2 : hexDecode (hexEncode nonce) = some nonce :=
    hexDecode_hexEncode _ hnb
  simp only [Encrypt, Decrypt, h1, h2]
  exact gcmOpen_gcmSeal E nonce pt hE16

/-- Witness for C8 with the constant-zero block cipher, the zero nonce and
a three-byte token. -/
theorem claim8_witness :
    Decrypt zeroCipher (Encrypt zeroCipher nonceW ptW).1
        (Encrypt zeroCipher nonceW ptW).2 = some ptW ∧
    (HashToken ptW).length = 64 :=
  ⟨(claim8_crypto_roundtrip zeroCipher nonceW ptW
      (fun b => by simp [zeroCipher])
      (fun b x hx => by
        rw [List.eq_of_mem_replicate hx]
        norm_num)
      (by decide)
      (fun x hx => by
        rw [List.eq_of_mem_replicate hx]
        norm_num)
      (by decide)).1,
    (claim8_crypto_roundtrip zeroCipher nonceW ptW
      (fun b => by simp [zeroCipher])
      (fun b x hx => by
        rw [List.eq_of_mem_replicate hx]
        norm_num)
      (by decide)
      (fun x hx => by
        rw [List.eq_of_mem_replicate hx]
        norm_num)
      (by decide)).2 ptW⟩

end Nirantar
